import Mathlib

/-!
Formal model of the ticket lifecycle orchestrator in
rich-automation/lotto-action, `src/index.ts`.

The four functions of the source file — `run`, `runActionsEnvironments`
(with `runInitRepo`), `runWinningCheck` and `runPurchase` — are embedded as
pure Lean functions.  The external collaborators (the issue-store CRUD
primitives, the body codec, the browser installer and the lottery
automation session) are out-of-scope modules invoked through narrow
contracts; they are embedded as function-valued fields of explicit
environment records, each returning `Except ErrorVal _` so that any call
may fail, exactly as any awaited JavaScript call may reject.

Every observable action of the orchestrator (session calls, store reads
and writes, the failure signal, the process exit) is recorded in an event
trace, so that frame conditions ("no store write happens") and temporal
conditions ("all checking precedes all purchasing") are statements about
the trace.
-/

/-- A JavaScript value sitting in a rejection / `throw`.  The source guards
its two catch blocks with `e instanceof Error`, so the model tracks whether
the thrown value is an `Error` instance together with its message. -/
structure ErrorVal where
  isError : Bool
  message : String
deriving DecidableEq

instance {ε α : Type} [DecidableEq ε] [DecidableEq α] : DecidableEq (Except ε α) := fun a b =>
  match a, b with
  | Except.ok x, Except.ok y =>
    decidable_of_iff (x = y) ⟨fun h => by rw [h], fun h => by injection h⟩
  | Except.error x, Except.error y =>
    decidable_of_iff (x = y) ⟨fun h => by rw [h], fun h => by injection h⟩
  | Except.ok _, Except.error _ => isFalse fun h => Except.noConfusion h
  | Except.error _, Except.ok _ => isFalse fun h => Except.noConfusion h

/-- A stored ticket as returned by `getWaitingIssues`: an issue number and
an optional body text (`issue.body` may be `undefined` or the empty string,
both falsy in the `if (issue.body)` guard at line 66). -/
structure Issue where
  number : Nat
  body : Option String
deriving DecidableEq

/-- Observable actions of one run, in program order. -/
inductive Event where
  | initLabels : Event
  | installBrowser : Event
  | signIn (id pwd : String) : Event
  | listWaiting : Event
  | parseCall (body : String) : Event
  | checkCall (combo : List Nat) (round : Nat) : Event
  | markCall (issue : Nat) (labels : List String) : Event
  | markOk (issue : Nat) (labels : List String) : Event
  | purchaseCall (amount : Int) : Event
  | createCall (date body : String) : Event
  | createOk (date body : String) : Event
  | destroyCall : Event
  | logFailure (msg : String) : Event
  | setFailed (msg : String) : Event
  | logRejected (n : Nat) : Event
  | procExit (code : Nat) : Event
deriving DecidableEq

/-- Events of the checking phase: the store read, body decodes, automation
`check` calls and the Checked-transition store writes. -/
def isCheckPhase : Event → Bool
  | Event.listWaiting => true
  | Event.parseCall _ => true
  | Event.checkCall _ _ => true
  | Event.markCall _ _ => true
  | Event.markOk _ _ => true
  | _ => false

/-- Events of the purchasing phase: the automation `purchase` call, the
ticket-creation store write and the session release. -/
def isPurchasePhase : Event → Bool
  | Event.purchaseCall _ => true
  | Event.createCall _ _ => true
  | Event.createOk _ _ => true
  | Event.destroyCall => true
  | _ => false

def isCheckCall : Event → Bool
  | Event.checkCall _ _ => true
  | _ => false

def isMarkCall : Event → Bool
  | Event.markCall _ _ => true
  | _ => false

def isMarkOk : Event → Bool
  | Event.markOk _ _ => true
  | _ => false

def isPurchaseCall : Event → Bool
  | Event.purchaseCall _ => true
  | _ => false

def isCreateOk : Event → Bool
  | Event.createOk _ _ => true
  | _ => false

def isDestroyCall : Event → Bool
  | Event.destroyCall => true
  | _ => false

def isSetFailed : Event → Bool
  | Event.setFailed _ => true
  | _ => false

def isLogFailure : Event → Bool
  | Event.logFailure _ => true
  | _ => false

/-- Whether an awaited result is a rejection (a `rejected` entry of
`Promise.allSettled`). -/
def isRejected : Except ErrorVal Unit → Bool
  | Except.error _ => true
  | Except.ok _ => false

/-- Spread of a JavaScript `Set` built from a list, as in
`[...new Set(xs)]` at line 75: keeps the first occurrence of each element,
in insertion order. -/
def jsSetDedup {α : Type} [DecidableEq α] (l : List α) : List α :=
  l.foldl (fun acc x => if x ∈ acc then acc else acc ++ [x]) []

/-- Environment of the checking phase: the body codec's decoder, the
automation session's `check`, the fixed rank-to-label lookup and the
store's Checked-transition write (`markIssueAsChecked`). -/
structure CheckEnv where
  bodyParser : String → Except ErrorVal (List (List Nat) × Nat)
  check : List Nat → Nat → Except ErrorVal Nat
  rankToLabel : Nat → String
  markIssueAsChecked : Nat → List String → Except ErrorVal Unit

/-- Modelled from the spec: the `rankToLabel` lookup lives in the internal
issues module, absent from the sources; the spec describes it as a total,
fixed lookup from a rank to a label category ("no win", 5th place … 1st
place), one distinct label per rank. -/
def rankToLabel : Nat → String
  | 1 => "1st place"
  | 2 => "2nd place"
  | 3 => "3rd place"
  | 4 => "4th place"
  | 5 => "5th place"
  | _ => "no win"

/-- Lines 69-73: `numbers.map(async number => ...)` followed by
`Promise.all`.  Every combination's `service.check` call is issued (so its
event is in the trace regardless of failures); the joined result is the
list of ranks, or the first rejection in combination order. -/
def runChecks (env : CheckEnv) (round : Nat) : List (List Nat) → List Event × Except ErrorVal (List Nat)
  | [] => ([], Except.ok [])
  | n :: ns =>
    let rest := runChecks env round ns
    match env.check n round with
    | Except.error e => (Event.checkCall n round :: rest.1, Except.error e)
    | Except.ok r =>
      match rest.2 with
      | Except.error e => (Event.checkCall n round :: rest.1, Except.error e)
      | Except.ok rs => (Event.checkCall n round :: rest.1, Except.ok (r :: rs))

/-- Lines 65-78: the per-ticket pipeline.  A falsy body (absent or empty)
skips the ticket and fulfils.  Otherwise the body is decoded, every
combination is checked, the ranks are mapped to labels and deduplicated,
and the ticket is marked Checked; any rejection along the way rejects this
ticket's promise.  `markCall` records the store write being attempted,
`markOk` records it succeeding. -/
def checkIssue (env : CheckEnv) (issue : Issue) : List Event × Except ErrorVal Unit :=
  match issue.body with
  | none => ([], Except.ok ())
  | some b =>
    if b = "" then ([], Except.ok ())
    else
      match env.bodyParser b with
      | Except.error e => ([Event.parseCall b], Except.error e)
      | Except.ok (numbers, round) =>
        let cr := runChecks env round numbers
        match cr.2 with
        | Except.error e => (Event.parseCall b :: cr.1, Except.error e)
        | Except.ok ranks =>
          let lbls := jsSetDedup (ranks.map env.rankToLabel)
          match env.markIssueAsChecked issue.number lbls with
          | Except.error e =>
            (Event.parseCall b :: cr.1 ++ [Event.markCall issue.number lbls], Except.error e)
          | Except.ok _ =>
            (Event.parseCall b :: cr.1 ++
               [Event.markCall issue.number lbls, Event.markOk issue.number lbls], Except.ok ())

/-- Line 80: `Promise.allSettled(promises)` — every ticket's pipeline runs
to completion and its outcome is collected; no outcome depends on any
sibling. -/
def settleAll (env : CheckEnv) (issues : List Issue) : List (List Event × Except ErrorVal Unit) :=
  issues.map (checkIssue env)

/-- Line 81: the number of rejected per-ticket pipelines. -/
def rejectedCount (env : CheckEnv) (issues : List Issue) : Nat :=
  ((settleAll env issues).filter (fun o => isRejected o.2)).length

/-- Lines 58-88: `runWinningCheck`.  The argument `q` is the awaited result
of `getWaitingIssues()` (a rejection there propagates).  With at least one
awaiting ticket all pipelines are settled and a nonzero rejection count is
logged; with none the function is a no-op.  No rejection of a per-ticket
pipeline escapes this function. -/
def runWinningCheck (q : Except ErrorVal (List Issue)) (env : CheckEnv) :
    List Event × Except ErrorVal Unit :=
  match q with
  | Except.error e => ([Event.listWaiting], Except.error e)
  | Except.ok issues =>
    if 0 < issues.length then
      (Event.listWaiting :: ((settleAll env issues).map Prod.fst).flatten ++
         (if 0 < rejectedCount env issues then [Event.logRejected (rejectedCount env issues)] else []),
       Except.ok ())
    else ([Event.listWaiting], Except.ok ())

/-- Decimal digit string to its value; `none` when some character is not a
digit or the string is empty. -/
def decDigits (cs : List Char) : Option Nat :=
  if cs ≠ [] ∧ cs.all Char.isDigit then
    some (cs.foldl (fun a c => a * 10 + (c.toNat - 48)) 0)
  else none

/-- Leading and trailing whitespace of a string's character list, removed. -/
def jsTrim (s : String) : List Char :=
  ((s.toList.dropWhile Char.isWhitespace).reverse.dropWhile Char.isWhitespace).reverse

/-- JavaScript `Number(s)` on the decimal-integer fragment used for the
purchase-amount input: leading and trailing whitespace is trimmed, the
empty string converts to `0`, an optionally signed run of decimal digits
converts to its value, and anything else is NaN (`none`).  Fractional,
hexadecimal and exponent forms are outside the modelled fragment. -/
def jsNumber (s : String) : Option Int :=
  match jsTrim s with
  | [] => some 0
  | '-' :: rest => (decDigits rest).map (fun n => -(n : Int))
  | '+' :: rest => (decDigits rest).map (fun n => (n : Int))
  | cs => (decDigits cs).map (fun n => (n : Int))

/-- Lines 94-95: `Number(input) || 5` (a falsy conversion — `0` or NaN —
falls back to the default 5) followed by `Math.max(1, Math.min(x, 5))`. -/
def purchaseAmount (s : String) : Int :=
  let amountInput : Int :=
    match jsNumber s with
    | none => 5
    | some v => if v = 0 then 5 else v
  max 1 (min amountInput 5)

/-- Environment of the purchasing phase: the configured purchase-amount
input string, the session's `purchase`, the free `getCurrentLottoRound`,
the session's `getCheckWinningLink`, the body codec's `bodyBuilder`, the
store's `createWaitingIssue`, the session's `destroy`, and the current
date string computed at line 97. -/
structure PurchaseEnv where
  amountInput : String
  purchase : Int → Except ErrorVal (List (List Nat))
  currentRound : Except ErrorVal Nat
  getCheckWinningLink : Nat → List (List Nat) → Except ErrorVal String
  bodyBuilder : String → Nat → List (List Nat) → String → String
  createWaitingIssue : String → String → Except ErrorVal Unit
  destroy : Except ErrorVal Unit
  today : String

/-- Lines 94-107: the body of `runPurchase`'s try block.  The clamped
amount is purchased, the target round is the current round plus one, the
verification link and body text are built, and the awaiting ticket is
created.  The first rejection aborts the rest of the sequence.
`createCall` records the store write being attempted, `createOk` records
it succeeding. -/
def purchaseSeq (env : PurchaseEnv) : List Event × Except ErrorVal Unit :=
  let amount := purchaseAmount env.amountInput
  match env.purchase amount with
  | Except.error e => ([Event.purchaseCall amount], Except.error e)
  | Except.ok numbers =>
    match env.currentRound with
    | Except.error e => ([Event.purchaseCall amount], Except.error e)
    | Except.ok cur =>
      let round := cur + 1
      match env.getCheckWinningLink round numbers with
      | Except.error e => ([Event.purchaseCall amount], Except.error e)
      | Except.ok link =>
        let body := env.bodyBuilder env.today round numbers link
        match env.createWaitingIssue env.today body with
        | Except.error e =>
          ([Event.purchaseCall amount, Event.createCall env.today body], Except.error e)
        | Except.ok _ =>
          ([Event.purchaseCall amount, Event.createCall env.today body,
            Event.createOk env.today body], Except.ok ())

/-- Lines 23-26 and 111-114: the shared shape of both catch blocks — a
failure message is logged and the failure signal set only when the caught
value is an `Error` instance. -/
def catchHandler (e : ErrorVal) : List Event :=
  if e.isError then [Event.logFailure e.message, Event.setFailed e.message] else []

/-- Lines 90-116: `runPurchase`.  On any rejection of the purchase
sequence the session is destroyed and the rejection is handled by the
guarded catch block; only a rejection of `destroy` itself escapes. -/
def runPurchase (env : PurchaseEnv) : List Event × Except ErrorVal Unit :=
  match purchaseSeq env with
  | (tr, Except.ok _) => (tr, Except.ok ())
  | (tr, Except.error e) =>
    match env.destroy with
    | Except.error d => (tr ++ [Event.destroyCall], Except.error d)
    | Except.ok _ => (tr ++ [Event.destroyCall] ++ catchHandler e, Except.ok ())

/-- Environment of one whole run: the label bootstrap, the browser
installer, the two credential inputs and the session sign-in, the store
read of awaiting tickets, and the two phase environments. -/
structure RunEnv where
  initLabels : Except ErrorVal Unit
  installBrowser : Except ErrorVal Unit
  lottoId : String
  lottoPassword : String
  signIn : String → String → Except ErrorVal Unit
  getWaitingIssues : Except ErrorVal (List Issue)
  checkEnv : CheckEnv
  purchaseEnv : PurchaseEnv

/-- Lines 54-56: `runInitRepo` awaits the idempotent label bootstrap. -/
def runInitRepo (env : RunEnv) : List Event × Except ErrorVal Unit :=
  ([Event.initLabels], env.initLabels)

/-- Lines 31-52: `runActionsEnvironments` installs the browser, constructs
the session, and signs in only when both credential inputs are
non-empty. -/
def runActionsEnvironments (env : RunEnv) : List Event × Except ErrorVal Unit :=
  match env.installBrowser with
  | Except.error e => ([Event.installBrowser], Except.error e)
  | Except.ok _ =>
    if env.lottoId ≠ "" ∧ env.lottoPassword ≠ "" then
      match env.signIn env.lottoId env.lottoPassword with
      | Except.error e =>
        ([Event.installBrowser, Event.signIn env.lottoId env.lottoPassword], Except.error e)
      | Except.ok _ =>
        ([Event.installBrowser, Event.signIn env.lottoId env.lottoPassword], Except.ok ())
    else ([Event.installBrowser], Except.ok ())

/-- Lines 17-21: the body of `run`'s try block — bootstrap, environment
setup, checking, then purchasing, each awaited in order, the first
rejection aborting the rest. -/
def runBody (env : RunEnv) : List Event × Except ErrorVal Unit :=
  let s1 := runInitRepo env
  match s1.2 with
  | Except.error e => (s1.1, Except.error e)
  | Except.ok _ =>
    let s2 := runActionsEnvironments env
    match s2.2 with
    | Except.error e => (s1.1 ++ s2.1, Except.error e)
    | Except.ok _ =>
      let s3 := runWinningCheck env.getWaitingIssues env.checkEnv
      match s3.2 with
      | Except.error e => (s1.1 ++ s2.1 ++ s3.1, Except.error e)
      | Except.ok _ =>
        let s4 := runPurchase env.purchaseEnv
        (s1.1 ++ s2.1 ++ s3.1 ++ s4.1, s4.2)

/-- Lines 15-30: `run`.  Any escaping rejection reaches the guarded catch
block, and the finally block exits the process with status code 0 on every
path.  The result is the event trace and the process exit code. -/
def run (env : RunEnv) : List Event × Nat :=
  match runBody env with
  | (tr, Except.ok _) => (tr ++ [Event.procExit 0], 0)
  | (tr, Except.error e) => (tr ++ catchHandler e ++ [Event.procExit 0], 0)

def c9env : CheckEnv :=
  { bodyParser := fun _ => Except.error ⟨true, "unused"⟩
    check := fun _ _ => Except.ok 0
    rankToLabel := rankToLabel
    markIssueAsChecked := fun _ _ => Except.ok () }

def c1penv : PurchaseEnv :=
  { amountInput := "0"
    purchase := fun _ => Except.ok [[1, 2, 3, 4, 5, 6]]
    currentRound := Except.ok 1084
    getCheckWinningLink := fun _ _ => Except.ok "link"
    bodyBuilder := fun _ _ _ _ => "body"
    createWaitingIssue := fun _ _ => Except.ok ()
    destroy := Except.ok ()
    today := "2024-01-06" }

def c2env : CheckEnv :=
  { bodyParser := fun b => if b = "Z" then Except.ok ([], 42) else Except.error ⟨true, "parse"⟩
    check := fun _ _ => Except.ok 0
    rankToLabel := rankToLabel
    markIssueAsChecked := fun _ _ => Except.ok () }

def c2issue : Issue := ⟨7, some "Z"⟩

def c3penv : PurchaseEnv :=
  { amountInput := "3"
    purchase := fun _ => Except.error ⟨true, "purchase failed"⟩
    currentRound := Except.ok 1084
    getCheckWinningLink := fun _ _ => Except.ok "link"
    bodyBuilder := fun _ _ _ _ => "body"
    createWaitingIssue := fun _ _ => Except.ok ()
    destroy := Except.ok ()
    today := "2024-01-06" }

def c5env : CheckEnv :=
  { bodyParser := fun _ => Except.ok ([[1], [2], [3]], 200)
    check := fun n _ => if n = [3] then Except.ok 3 else Except.ok 5
    rankToLabel := rankToLabel
    markIssueAsChecked := fun _ _ => Except.ok () }

def c5issue : Issue := ⟨9, some "C"⟩

def c4env : CheckEnv :=
  { bodyParser := fun b =>
      if b = "A" then Except.ok ([[1, 2, 3, 4, 5, 6]], 100) else Except.error ⟨true, "bad body"⟩
    check := fun _ _ => Except.ok 5
    rankToLabel := rankToLabel
    markIssueAsChecked := fun _ _ => Except.ok () }

def issueA : Issue := ⟨1, some "A"⟩

def issueB : Issue := ⟨2, some "B"⟩

def c10penv : PurchaseEnv :=
  { amountInput := ""
    purchase := fun _ => Except.error ⟨false, "thrown"⟩
    currentRound := Except.ok 1
    getCheckWinningLink := fun _ _ => Except.ok "l"
    bodyBuilder := fun _ _ _ _ => "b"
    createWaitingIssue := fun _ _ => Except.ok ()
    destroy := Except.ok ()
    today := "t" }

def c10renv : RunEnv :=
  { initLabels := Except.ok ()
    installBrowser := Except.ok ()
    lottoId := ""
    lottoPassword := ""
    signIn := fun _ _ => Except.ok ()
    getWaitingIssues := Except.error ⟨false, "thrown"⟩
    checkEnv :=
      { bodyParser := fun _ => Except.error ⟨true, "unused"⟩
        check := fun _ _ => Except.ok 0
        rankToLabel := rankToLabel
        markIssueAsChecked := fun _ _ => Except.ok () }
    purchaseEnv := c10penv }

theorem runWinningCheck_ok_never_rejects (env : CheckEnv) (issues : List Issue) :
    (runWinningCheck (Except.ok issues) env).2 = Except.ok () := by
  unfold runWinningCheck
  by_cases h : 0 < issues.length <;> simp [h]

theorem jsSetDedup_loop_nodup {α : Type} [DecidableEq α] (l : List α) :
    ∀ acc : List α, acc.Nodup →
      (l.foldl (fun acc x => if x ∈ acc then acc else acc ++ [x]) acc).Nodup := by
  induction l with
  | nil => intro acc h; simpa using h
  | cons x xs ih =>
    intro acc h
    simp only [List.foldl_cons]
    by_cases hx : x ∈ acc
    · rw [if_pos hx]; exact ih acc h
    · rw [if_neg hx]
      refine ih (acc ++ [x]) ?_
      simp [List.nodup_append, h, hx]

theorem jsSetDedup_loop_mem {α : Type} [DecidableEq α] (l : List α) :
    ∀ (acc : List α) (y : α),
      (y ∈ l.foldl (fun acc x => if x ∈ acc then acc else acc ++ [x]) acc ↔ y ∈ acc ∨ y ∈ l) := by
  induction l with
  | nil => intro acc y; simp
  | cons x xs ih =>
    intro acc y
    simp only [List.foldl_cons, List.mem_cons]
    by_cases hx : x ∈ acc
    · rw [if_pos hx, ih]
      constructor
      · rintro (h | h)
        · exact Or.inl h
        · exact Or.inr (Or.inr h)
      · rintro (h | rfl | h)
        · exact Or.inl h
        · exact Or.inl hx
        · exact Or.inr h
    · rw [if_neg hx, ih]
      simp only [List.mem_append, List.mem_singleton]
      constructor
      · rintro ((h | rfl) | h)
        · exact Or.inl h
        · exact Or.inr (Or.inl rfl)
        · exact Or.inr (Or.inr h)
      · rintro (h | rfl | h)
        · exact Or.inl (Or.inl h)
        · exact Or.inl (Or.inr rfl)
        · exact Or.inr h

theorem jsSetDedup_nodup {α : Type} [DecidableEq α] (l : List α) : (jsSetDedup l).Nodup :=
  jsSetDedup_loop_nodup l [] List.nodup_nil

theorem mem_jsSetDedup {α : Type} [DecidableEq α] (l : List α) (y : α) :
    y ∈ jsSetDedup l ↔ y ∈ l := by
  unfold jsSetDedup
  rw [jsSetDedup_loop_mem]
  simp

theorem runChecks_fst (env : CheckEnv) (round : Nat) (ns : List (List Nat)) :
    (runChecks env round ns).1 = ns.map (fun n => Event.checkCall n round) := by
  induction ns with
  | nil => rfl
  | cons n ns ih =>
    unfold runChecks
    cases h : env.check n round with
    | error e => simp [h, ih]
    | ok r =>
      cases h2 : (runChecks env round ns).2 with
      | error e => simp [h, h2, ih]
      | ok rs => simp [h, h2, ih]

theorem purchaseSeq_shape (env : PurchaseEnv) :
    (∃ e, (purchaseSeq env).1 = [Event.purchaseCall (purchaseAmount env.amountInput)] ∧
        (purchaseSeq env).2 = Except.error e) ∨
    (∃ b e, (purchaseSeq env).1 =
        [Event.purchaseCall (purchaseAmount env.amountInput), Event.createCall env.today b] ∧
        (purchaseSeq env).2 = Except.error e) ∨
    (∃ b, (purchaseSeq env).1 =
        [Event.purchaseCall (purchaseAmount env.amountInput), Event.createCall env.today b,
          Event.createOk env.today b] ∧
        (purchaseSeq env).2 = Except.ok ()) := by
  unfold purchaseSeq
  cases h1 : env.purchase (purchaseAmount env.amountInput) with
  | error e => exact Or.inl ⟨e, by simp [h1], by simp [h1]⟩
  | ok numbers =>
    cases h2 : env.currentRound with
    | error e => exact Or.inl ⟨e, by simp [h1, h2], by simp [h1, h2]⟩
    | ok cur =>
      cases h3 : env.getCheckWinningLink (cur + 1) numbers with
      | error e => exact Or.inl ⟨e, by simp [h1, h2, h3], by simp [h1, h2, h3]⟩
      | ok link =>
        cases h4 : env.createWaitingIssue env.today (env.bodyBuilder env.today (cur + 1) numbers link) with
        | error e =>
          exact Or.inr (Or.inl ⟨env.bodyBuilder env.today (cur + 1) numbers link, e,
            by simp [h1, h2, h3, h4], by simp [h1, h2, h3, h4]⟩)
        | ok u =>
          exact Or.inr (Or.inr ⟨env.bodyBuilder env.today (cur + 1) numbers link,
            by simp [h1, h2, h3, h4], by simp [h1, h2, h3, h4]⟩)

theorem checkIssue_shape (env : CheckEnv) (issue : Issue) :
    ((issue.body = none ∨ issue.body = some "") ∧ checkIssue env issue = ([], Except.ok ())) ∨
    (∃ b e, issue.body = some b ∧ b ≠ "" ∧ env.bodyParser b = Except.error e ∧
      checkIssue env issue = ([Event.parseCall b], Except.error e)) ∨
    (∃ b numbers round e, issue.body = some b ∧ b ≠ "" ∧
      env.bodyParser b = Except.ok (numbers, round) ∧
      (runChecks env round numbers).2 = Except.error e ∧
      checkIssue env issue =
        (Event.parseCall b :: numbers.map (fun n => Event.checkCall n round), Except.error e)) ∨
    (∃ b numbers round ranks e, issue.body = some b ∧ b ≠ "" ∧
      env.bodyParser b = Except.ok (numbers, round) ∧
      (runChecks env round numbers).2 = Except.ok ranks ∧
      env.markIssueAsChecked issue.number (jsSetDedup (ranks.map env.rankToLabel)) = Except.error e ∧
      checkIssue env issue =
        (Event.parseCall b :: numbers.map (fun n => Event.checkCall n round) ++
          [Event.markCall issue.number (jsSetDedup (ranks.map env.rankToLabel))], Except.error e)) ∨
    (∃ b numbers round ranks, issue.body = some b ∧ b ≠ "" ∧
      env.bodyParser b = Except.ok (numbers, round) ∧
      (runChecks env round numbers).2 = Except.ok ranks ∧
      env.markIssueAsChecked issue.number (jsSetDedup (ranks.map env.rankToLabel)) = Except.ok () ∧
      checkIssue env issue =
        (Event.parseCall b :: numbers.map (fun n => Event.checkCall n round) ++
          [Event.markCall issue.number (jsSetDedup (ranks.map env.rankToLabel)),
            Event.markOk issue.number (jsSetDedup (ranks.map env.rankToLabel))], Except.ok ())) := by
  cases hb : issue.body with
  | none => exact Or.inl ⟨Or.inl rfl, by simp [checkIssue, hb]⟩
  | some b =>
    by_cases hne : b = ""
    · subst hne
      exact Or.inl ⟨Or.inr rfl, by simp [checkIssue, hb]⟩
    · cases hp : env.bodyParser b with
      | error e =>
        exact Or.inr (Or.inl ⟨b, e, rfl, hne, hp, by simp [checkIssue, hb, hne, hp]⟩)
      | ok pr =>
        obtain ⟨numbers, round⟩ := pr
        cases hc : (runChecks env round numbers).2 with
        | error e =>
          refine Or.inr (Or.inr (Or.inl ⟨b, numbers, round, e, rfl, hne, hp, hc, ?_⟩))
          simp [checkIssue, hb, hne, hp, hc, runChecks_fst]
        | ok ranks =>
          cases hm : env.markIssueAsChecked issue.number (jsSetDedup (ranks.map env.rankToLabel)) with
          | error e =>
            refine Or.inr (Or.inr (Or.inr (Or.inl ⟨b, numbers, round, ranks, e, rfl, hne, hp, hc, hm, ?_⟩)))
            simp [checkIssue, hb, hne, hp, hc, hm, runChecks_fst]
          | ok u =>
            refine Or.inr (Or.inr (Or.inr (Or.inr ⟨b, numbers, round, ranks, rfl, hne, hp, hc, hm, ?_⟩)))
            simp [checkIssue, hb, hne, hp, hc, hm, runChecks_fst]

theorem checkPhase_not_purchasePhase (ev : Event) (h : isCheckPhase ev = true) :
    isPurchasePhase ev = false := by
  cases ev <;> simp [isCheckPhase, isPurchasePhase] at h ⊢

theorem checkIssue_checkPhase (env : CheckEnv) (issue : Issue) :
    ∀ ev ∈ (checkIssue env issue).1, isCheckPhase ev = true := by
  intro ev hev
  rcases checkIssue_shape env issue with
    ⟨_, hq⟩ | ⟨b, e, _, _, _, hq⟩ | ⟨b, numbers, round, e, _, _, _, _, hq⟩ |
    ⟨b, numbers, round, ranks, e, _, _, _, _, _, hq⟩ |
    ⟨b, numbers, round, ranks, _, _, _, _, _, hq⟩ <;>
    rw [hq] at hev <;> simp [List.mem_cons, List.mem_append, List.mem_map] at hev
  · subst hev; rfl
  · rcases hev with rfl | ⟨n, _, rfl⟩ <;> rfl
  · rcases hev with rfl | ⟨n, _, rfl⟩ | rfl <;> rfl
  · rcases hev with rfl | ⟨n, _, rfl⟩ | rfl | rfl <;> rfl

theorem runWinningCheck_noPurchasePhase (q : Except ErrorVal (List Issue)) (env : CheckEnv) :
    ∀ ev ∈ (runWinningCheck q env).1, isPurchasePhase ev = false := by
  intro ev hev
  cases q with
  | error e => simp [runWinningCheck] at hev; subst hev; rfl
  | ok issues =>
    simp only [runWinningCheck] at hev
    by_cases h : 0 < issues.length
    · rw [if_pos h] at hev
      rcases List.mem_cons.mp hev with rfl | hev2
      · rfl
      · rcases List.mem_append.mp hev2 with hev3 | hev4
        · rcases List.mem_flatten.mp hev3 with ⟨l, hl, hevl⟩
          rcases List.mem_map.mp hl with ⟨o, ho, rfl⟩
          rcases List.mem_map.mp ho with ⟨i, _, rfl⟩
          exact checkPhase_not_purchasePhase ev (checkIssue_checkPhase env i ev hevl)
        · by_cases hr : 0 < rejectedCount env issues
          · rw [if_pos hr] at hev4
            simp at hev4; subst hev4; rfl
          · rw [if_neg hr] at hev4; simp at hev4
    · rw [if_neg h] at hev; simp at hev; subst hev; rfl

theorem catchHandler_events (e : ErrorVal) :
    ∀ ev ∈ catchHandler e, isPurchasePhase ev = false ∧ isCheckPhase ev = false := by
  intro ev hev
  unfold catchHandler at hev
  by_cases h : e.isError
  · rw [if_pos h] at hev
    rcases List.mem_cons.mp hev with rfl | hev2
    · exact ⟨rfl, rfl⟩
    · simp at hev2; subst hev2; exact ⟨rfl, rfl⟩
  · rw [if_neg h] at hev; simp at hev

theorem purchaseSeq_noCheckPhase (env : PurchaseEnv) :
    ∀ x ∈ (purchaseSeq env).1, isCheckPhase x = false := by
  intro x hx
  rcases purchaseSeq_shape env with ⟨e, h1, _⟩ | ⟨b, e, h1, _⟩ | ⟨b, h1, _⟩
  · rw [h1] at hx; simp at hx; subst hx; rfl
  · rw [h1] at hx
    rcases List.mem_cons.mp hx with rfl | hx2
    · rfl
    · simp at hx2; subst hx2; rfl
  · rw [h1] at hx
    rcases List.mem_cons.mp hx with rfl | hx2
    · rfl
    · rcases List.mem_cons.mp hx2 with rfl | hx3
      · rfl
      · simp at hx3; subst hx3; rfl

theorem runPurchase_noCheckPhase (env : PurchaseEnv) :
    ∀ ev ∈ (runPurchase env).1, isCheckPhase ev = false := by
  intro ev hev
  have htr := purchaseSeq_noCheckPhase env
  rcases hps : purchaseSeq env with ⟨tr, res⟩
  rw [hps] at htr
  unfold runPurchase at hev
  rw [hps] at hev
  cases res with
  | ok u => exact htr ev hev
  | error e =>
    cases hd : env.destroy with
    | error d =>
      rw [hd] at hev
      rcases List.mem_append.mp hev with h | h
      · exact htr ev h
      · simp at h; subst h; rfl
    | ok u =>
      rw [hd] at hev
      rcases List.mem_append.mp hev with h | h
      · rcases List.mem_append.mp h with h2 | h2
        · exact htr ev h2
        · simp at h2; subst h2; rfl
      · exact (catchHandler_events e ev h).2

theorem runActionsEnvironments_events (env : RunEnv) :
    ∀ ev ∈ (runActionsEnvironments env).1, isPurchasePhase ev = false ∧ isCheckPhase ev = false := by
  intro ev hev
  unfold runActionsEnvironments at hev
  cases hi : env.installBrowser with
  | error e => rw [hi] at hev; simp at hev; subst hev; exact ⟨rfl, rfl⟩
  | ok u =>
    rw [hi] at hev
    by_cases hcred : env.lottoId ≠ "" ∧ env.lottoPassword ≠ ""
    · rw [if_pos hcred] at hev
      cases hs : env.signIn env.lottoId env.lottoPassword <;> rw [hs] at hev <;>
        rcases List.mem_cons.mp hev with rfl | hev2 <;>
        first
          | exact ⟨rfl, rfl⟩
          | (simp at hev2; subst hev2; exact ⟨rfl, rfl⟩)
    · rw [if_neg hcred] at hev; simp at hev; subst hev; exact ⟨rfl, rfl⟩

theorem runBody_split (env : RunEnv) :
    ∃ l₁ l₂, (runBody env).1 = l₁ ++ l₂ ∧
      (∀ ev ∈ l₁, isPurchasePhase ev = false) ∧ (∀ ev ∈ l₂, isCheckPhase ev = false) := by
  have hAct : ∀ ev ∈ (runActionsEnvironments env).1, isPurchasePhase ev = false :=
    fun ev hev => (runActionsEnvironments_events env ev hev).1
  have hWin := runWinningCheck_noPurchasePhase env.getWaitingIssues env.checkEnv
  have hPur := runPurchase_noCheckPhase env.purchaseEnv
  have hInit : ∀ ev ∈ [Event.initLabels], isPurchasePhase ev = false := by
    intro ev hev; simp at hev; subst hev; rfl
  simp only [runBody, runInitRepo]
  cases h1 : env.initLabels with
  | error e => exact ⟨[Event.initLabels], [], by simp, hInit, by simp⟩
  | ok u1 =>
    cases h2 : (runActionsEnvironments env).2 with
    | error e =>
      exact ⟨[Event.initLabels] ++ (runActionsEnvironments env).1, [], by simp,
        List.forall_mem_append.mpr ⟨hInit, hAct⟩, by simp⟩
    | ok u2 =>
      cases h3 : (runWinningCheck env.getWaitingIssues env.checkEnv).2 with
      | error e =>
        exact ⟨[Event.initLabels] ++ (runActionsEnvironments env).1 ++
            (runWinningCheck env.getWaitingIssues env.checkEnv).1, [], by simp,
          List.forall_mem_append.mpr ⟨List.forall_mem_append.mpr ⟨hInit, hAct⟩, hWin⟩, by simp⟩
      | ok u3 =>
        exact ⟨[Event.initLabels] ++ (runActionsEnvironments env).1 ++
            (runWinningCheck env.getWaitingIssues env.checkEnv).1,
          (runPurchase env.purchaseEnv).1, rfl,
          List.forall_mem_append.mpr ⟨List.forall_mem_append.mpr ⟨hInit, hAct⟩, hWin⟩, hPur⟩

theorem run_eq (env : RunEnv) :
    run env = ((runBody env).1 ++
      (match (runBody env).2 with
        | Except.ok _ => []
        | Except.error e => catchHandler e) ++ [Event.procExit 0], 0) := by
  unfold run
  rcases h : runBody env with ⟨tr, res⟩
  cases res <;> simp

/-- C6: the process always terminates with a success exit status, regardless
of any internal failure: for every environment, including ones where an
error escapes to the top-level controller, the exit code of `run` is 0 and
the very last observable action is the `process.exit(0)` of the finally
block; failures surface only through the `setFailed` signal and log events
inside the trace. -/
theorem C6_exit_success (env : RunEnv) :
    (run env).2 = 0 ∧ (run env).1.getLast? = some (Event.procExit 0) := by
  rw [run_eq]
  refine ⟨rfl, ?_⟩
  exact List.getLast?_concat _

/-- C7: when the set of awaiting tickets is empty, the checker is a no-op:
its whole trace is the single store read, so there are no automation check
calls, no store writes and no logged or counted failures, and it
fulfils. -/
theorem C7_empty_noop (env : CheckEnv) :
    runWinningCheck (Except.ok []) env = ([Event.listWaiting], Except.ok ()) ∧
    (runWinningCheck (Except.ok []) env).1.countP isCheckCall = 0 ∧
    (runWinningCheck (Except.ok []) env).1.countP isMarkCall = 0 ∧
    (runWinningCheck (Except.ok []) env).1.countP isMarkOk = 0 ∧
    rejectedCount env [] = 0 :=
  ⟨rfl, rfl, rfl, rfl, rfl⟩

/-- C8: in every run the checking phase completes fully before the
purchasing phase starts: the whole run trace splits into a prefix with no
purchase-phase event (no session purchase, no ticket creation, no session
release) and a suffix with no check-phase event (no store read of awaiting
tickets, no body decode, no rank check, no Checked-transition write) — the
two phases never interleave. -/
theorem C8_phase_separation (env : RunEnv) :
    ∃ l₁ l₂, (run env).1 = l₁ ++ l₂ ∧
      (∀ ev ∈ l₁, isPurchasePhase ev = false) ∧ (∀ ev ∈ l₂, isCheckPhase ev = false) := by
  obtain ⟨l₁, l₂, hsplit, h1, h2⟩ := runBody_split env
  refine ⟨l₁, l₂ ++ ((match (runBody env).2 with
    | Except.ok _ => []
    | Except.error e => catchHandler e) ++ [Event.procExit 0]), ?_, h1, ?_⟩
  · rw [run_eq]
    simp [hsplit, List.append_assoc]
  · intro ev hev
    rcases List.mem_append.mp hev with h | h
    · exact h2 ev h
    · rcases List.mem_append.mp h with h3 | h3
      · cases hres : (runBody env).2 with
        | ok u => rw [hres] at h3; simp at h3
        | error e => rw [hres] at h3; exact (catchHandler_events e ev h3).2
      · simp at h3; subst h3; rfl

/-- C9: an awaiting ticket whose stored body is absent or empty is silently
skipped: its pipeline performs no decode, no check calls and no store
update (the ticket stays Awaiting), and it fulfils, counting as a
successful outcome. -/
theorem C9_falsy_body_skip (env : CheckEnv) (issue : Issue)
    (h : issue.body = none ∨ issue.body = some "") :
    checkIssue env issue = ([], Except.ok ()) := by
  rcases h with h | h <;> simp [checkIssue, h]

/-- C9 witness: a ticket with no body and a ticket with an empty body are
both skipped as successes. -/
theorem C9_witness :
    checkIssue c9env ⟨3, none⟩ = ([], Except.ok ()) ∧
    checkIssue c9env ⟨4, some ""⟩ = ([], Except.ok ()) :=
  ⟨C9_falsy_body_skip c9env ⟨3, none⟩ (Or.inl rfl),
    C9_falsy_body_skip c9env ⟨4, some ""⟩ (Or.inr rfl)⟩

/-- C1 counterexample: with the configured purchase-amount input "0" the
amount actually passed to the session's purchase operation is 5, not 1:
`Number("0")` is 0, which is falsy, so the `|| 5` default at line 94
applies before the clamp at line 95 is ever reached. -/
theorem C1_counterexample :
    Event.purchaseCall 5 ∈ (purchaseSeq c1penv).1 ∧
    Event.purchaseCall 1 ∉ (purchaseSeq c1penv).1 ∧
    purchaseAmount "0" ≠ 1 :=
  ⟨by decide, by decide, by decide⟩

/-- C1 (amended): the purchase amount read from configuration is clamped to
the inclusive range [1, 5] with 5 as the default for an absent or invalid
input, but an input whose numeric conversion is falsy — including the
literal input "0" — also takes the default: for the inputs "0", "7", "abc"
and "3" the amount passed to the session's purchase operation is 5, 5, 5
and 3 respectively (the lower clamp to 1 is reached only by negative
numeric inputs, e.g. "-2"), and the purchase call always carries this
clamped value, which always lies in [1, 5]. -/
theorem C1_amount_clamping :
    purchaseAmount "0" = 5 ∧ purchaseAmount "7" = 5 ∧ purchaseAmount "abc" = 5 ∧
    purchaseAmount "3" = 3 ∧ purchaseAmount "-2" = 1 ∧
    (∀ env : PurchaseEnv, (purchaseSeq env).1.head? =
      some (Event.purchaseCall (purchaseAmount env.amountInput))) ∧
    (∀ s : String, 1 ≤ purchaseAmount s ∧ purchaseAmount s ≤ 5) := by
  refine ⟨by decide, by decide, by decide, by decide, by decide, ?_, ?_⟩
  · intro env
    rcases purchaseSeq_shape env with ⟨e, h1, _⟩ | ⟨b, e, h1, _⟩ | ⟨b, h1, _⟩ <;> rw [h1] <;> rfl
  · intro s
    unfold purchaseAmount
    refine ⟨le_max_left 1 _, max_le (by norm_num) (min_le_right _ 5)⟩

/-- C2 counterexample: a ticket whose body decodes to zero
number-combinations is not left Awaiting: the checker still issues one
store update for it, marking the ticket Checked with the empty label set —
the pipeline does fulfil (no failure is counted), but the "makes no store
update" part of the claim is false. -/
theorem C2_counterexample :
    c2env.bodyParser "Z" = Except.ok ([], 42) ∧
    (checkIssue c2env c2issue).1 = [Event.parseCall "Z", Event.markCall 7 [], Event.markOk 7 []] ∧
    (checkIssue c2env c2issue).1.countP isMarkOk ≠ 0 ∧
    isRejected (checkIssue c2env c2issue).2 = false :=
  ⟨by decide, by decide, by decide, by decide⟩

/-- C2 (amended): for every awaiting ticket whose body decodes to zero
number-combinations, the checker performs no rank checks and counts no
failure when the store update succeeds, but it does issue exactly one
store update for the ticket, marking it Checked with the empty label set —
the ticket does not stay Awaiting. -/
theorem C2_zero_numbers (env : CheckEnv) (issue : Issue) (b : String) (round : Nat)
    (hb : issue.body = some b) (hne : b ≠ "")
    (hp : env.bodyParser b = Except.ok ([], round))
    (hm : env.markIssueAsChecked issue.number [] = Except.ok ()) :
    checkIssue env issue =
      ([Event.parseCall b, Event.markCall issue.number [], Event.markOk issue.number []],
        Except.ok ()) := by
  simp [checkIssue, hb, hne, hp, runChecks, jsSetDedup, hm]

/-- C2 witness: the amended statement at a concrete zero-combination
ticket. -/
theorem C2_witness :
    checkIssue c2env c2issue =
      ([Event.parseCall "Z", Event.markCall 7 [], Event.markOk 7 []], Except.ok ()) :=
  C2_zero_numbers c2env c2issue "Z" 42 rfl (by decide) (by decide) rfl

theorem catchHandler_countP (e : ErrorVal) :
    (catchHandler e).countP isCreateOk = 0 ∧ (catchHandler e).countP isDestroyCall = 0 := by
  unfold catchHandler
  by_cases h : e.isError <;> simp [h, List.countP_cons, isCreateOk, isDestroyCall]

theorem runPurchase_eq (env : PurchaseEnv) :
    runPurchase env =
      match (purchaseSeq env).2 with
      | Except.ok _ => ((purchaseSeq env).1, Except.ok ())
      | Except.error e =>
        match env.destroy with
        | Except.error d => ((purchaseSeq env).1 ++ [Event.destroyCall], Except.error d)
        | Except.ok _ =>
          ((purchaseSeq env).1 ++ [Event.destroyCall] ++ catchHandler e, Except.ok ()) := by
  unfold runPurchase
  rcases h : purchaseSeq env with ⟨tr, res⟩
  cases res with
  | ok u => simp
  | error e => cases hd : env.destroy <;> simp [hd]

/-- C3: purchase atomicity — if the automation purchase call, the round
computation, the link computation or the ticket creation fails, no ticket
is created in the store on that run (no successful create-call event
exists in the trace) and the session's release operation is called exactly
once. -/
theorem C3_purchase_atomicity (env : PurchaseEnv) (e : ErrorVal)
    (h : (purchaseSeq env).2 = Except.error e) :
    (runPurchase env).1.countP isCreateOk = 0 ∧
    (runPurchase env).1.countP isDestroyCall = 1 := by
  have hseq : (purchaseSeq env).1.countP isCreateOk = 0 ∧
      (purchaseSeq env).1.countP isDestroyCall = 0 := by
    rcases purchaseSeq_shape env with ⟨e2, h1, _⟩ | ⟨b, e2, h1, _⟩ | ⟨b, _, h2⟩
    · rw [h1]; constructor <;> simp [List.countP_cons, isCreateOk, isDestroyCall]
    · rw [h1]; constructor <;> simp [List.countP_cons, isCreateOk, isDestroyCall]
    · rw [h2] at h; simp at h
  rw [runPurchase_eq, h]
  cases hd : env.destroy with
  | error d =>
    constructor <;>
      simp [List.countP_append, List.countP_cons, isCreateOk, isDestroyCall, hseq.1, hseq.2]
  | ok u =>
    have hc := catchHandler_countP e
    constructor <;>
      simp [List.countP_append, List.countP_cons, isCreateOk, isDestroyCall,
        hseq.1, hseq.2, hc.1, hc.2]

/-- C3 witness: with the automation purchase call itself failing, no ticket
is created and the release is called exactly once. -/
theorem C3_witness :
    (purchaseSeq c3penv).2 = Except.error ⟨true, "purchase failed"⟩ ∧
    (runPurchase c3penv).1.countP isCreateOk = 0 ∧
    (runPurchase c3penv).1.countP isDestroyCall = 1 :=
  ⟨by decide, C3_purchase_atomicity c3penv ⟨true, "purchase failed"⟩ (by decide)⟩

/-- C5: for every ticket the checker transitions to Checked, the label set
attached by the successful store update is exactly the deduplicated list
of per-combination rank labels: it equals `jsSetDedup` of the rank-label
list for the ranks the automation checks returned, has no duplicate, and
has exactly the members of the undeduplicated rank-label list. -/
theorem C5_label_dedup (env : CheckEnv) (issue : Issue) (lbls : List String)
    (hm : Event.markOk issue.number lbls ∈ (checkIssue env issue).1) :
    ∃ b numbers round ranks,
      issue.body = some b ∧
      env.bodyParser b = Except.ok (numbers, round) ∧
      (runChecks env round numbers).2 = Except.ok ranks ∧
      lbls = jsSetDedup (ranks.map env.rankToLabel) ∧
      lbls.Nodup ∧ (∀ s, s ∈ lbls ↔ s ∈ ranks.map env.rankToLabel) := by
  rcases checkIssue_shape env issue with
    ⟨_, hq⟩ | ⟨b, e, _, _, _, hq⟩ | ⟨b, numbers, round, e, _, _, _, _, hq⟩ |
    ⟨b, numbers, round, ranks, e, _, _, _, _, _, hq⟩ |
    ⟨b, numbers, round, ranks, hb, _, hp, hc, _, hq⟩
  · rw [hq] at hm; simp at hm
  · rw [hq] at hm; simp at hm
  · rw [hq] at hm; simp [List.mem_cons, List.mem_map] at hm
  · rw [hq] at hm; simp [List.mem_cons, List.mem_append, List.mem_map] at hm
  · rw [hq] at hm
    simp at hm
    subst hm
    exact ⟨b, numbers, round, ranks, hb, hp, hc, rfl, jsSetDedup_nodup _,
      fun s => mem_jsSetDedup _ s⟩

/-- C5 witness: a ticket whose three combinations produce the ranks
[5, 5, 3] is marked Checked with the two-member label set for rank 5 and
rank 3, not a three-member one. -/
theorem C5_witness :
    Event.markOk 9 ["5th place", "3rd place"] ∈ (checkIssue c5env c5issue).1 ∧
    (∃ b numbers round ranks,
      c5issue.body = some b ∧
      c5env.bodyParser b = Except.ok (numbers, round) ∧
      (runChecks c5env round numbers).2 = Except.ok ranks ∧
      (["5th place", "3rd place"] : List String) = jsSetDedup (ranks.map c5env.rankToLabel) ∧
      (["5th place", "3rd place"] : List String).Nodup ∧
      (∀ s, s ∈ (["5th place", "3rd place"] : List String) ↔
        s ∈ ranks.map c5env.rankToLabel)) ∧
    (["5th place", "3rd place"] : List String).length = 2 :=
  ⟨by decide, C5_label_dedup c5env c5issue ["5th place", "3rd place"] (by decide), by decide⟩

/-- C4: failure isolation of the checker — every ticket's pipeline outcome
is computed independently of its siblings (settling `pre ++ x :: post`
settles `x` exactly as it settles `x` alone), no per-ticket rejection ever
escapes the checker, and a nonzero rejection count is logged.
Concretely, for ticket A that decodes (and checks and updates) fine and
ticket B whose decode rejects, A is marked Checked, B gets no store update
at all (it stays Awaiting), and exactly one failure is counted. -/
theorem C4_failure_isolation :
    (∀ (env : CheckEnv) (pre post : List Issue) (x : Issue),
      settleAll env (pre ++ x :: post) =
        settleAll env pre ++ checkIssue env x :: settleAll env post) ∧
    (∀ (env : CheckEnv) (issues : List Issue),
      (runWinningCheck (Except.ok issues) env).2 = Except.ok ()) ∧
    (∀ (env : CheckEnv) (issues : List Issue), 0 < rejectedCount env issues →
      Event.logRejected (rejectedCount env issues) ∈ (runWinningCheck (Except.ok issues) env).1) ∧
    checkIssue c4env issueA =
      ([Event.parseCall "A", Event.checkCall [1, 2, 3, 4, 5, 6] 100,
        Event.markCall 1 ["5th place"], Event.markOk 1 ["5th place"]], Except.ok ()) ∧
    checkIssue c4env issueB = ([Event.parseCall "B"], Except.error ⟨true, "bad body"⟩) ∧
    rejectedCount c4env [issueA, issueB] = 1 ∧
    (checkIssue c4env issueB).1.countP isMarkCall = 0 ∧
    (checkIssue c4env issueB).1.countP isMarkOk = 0 := by
  refine ⟨?_, runWinningCheck_ok_never_rejects, ?_, by decide, by decide, by decide,
    by decide, by decide⟩
  · intro env pre post x
    simp [settleAll]
  · intro env issues hr
    have hlen : 0 < issues.length := by
      by_contra hc
      have hnil : issues = [] := List.length_eq_zero.mp (Nat.le_zero.mp (Nat.not_lt.mp hc))
      subst hnil
      simp [rejectedCount, settleAll] at hr
    simp only [runWinningCheck, if_pos hlen, if_pos hr]
    simp [List.mem_cons, List.mem_append]

/-- C4 witness: the rejection-count log is emitted for the concrete A/B
ticket pair, where exactly one pipeline is rejected. -/
theorem C4_witness :
    Event.logRejected (rejectedCount c4env [issueA, issueB]) ∈
      (runWinningCheck (Except.ok [issueA, issueB]) c4env).1 :=
  C4_failure_isolation.2.2.1 c4env [issueA, issueB] (by decide)

theorem purchaseSeq_countP_logs (env : PurchaseEnv) :
    (purchaseSeq env).1.countP isSetFailed = 0 ∧ (purchaseSeq env).1.countP isLogFailure = 0 := by
  rcases purchaseSeq_shape env with ⟨e, h1, _⟩ | ⟨b, e, h1, _⟩ | ⟨b, h1, _⟩ <;> rw [h1] <;>
    constructor <;> simp [List.countP_cons, isSetFailed, isLogFailure]

/-- C10: when the value thrown on a failure path is not an Error instance,
the guarded catch blocks do nothing with it: the handler emits no events
at all; in the purchase phase the session is destroyed and the rejection
is then swallowed with no failure signal and no failure log anywhere in
the phase's trace; and at the top-level controller the run appends neither
a failure signal nor a failure log for it and still exits with the success
status code — such a failure is invisible to the invoking scheduler. -/
theorem C10_non_error_invisible :
    (∀ e : ErrorVal, e.isError = false → catchHandler e = []) ∧
    (∀ (env : PurchaseEnv) (e : ErrorVal), e.isError = false →
      (purchaseSeq env).2 = Except.error e → env.destroy = Except.ok () →
      runPurchase env = ((purchaseSeq env).1 ++ [Event.destroyCall], Except.ok ()) ∧
      (runPurchase env).1.countP isSetFailed = 0 ∧
      (runPurchase env).1.countP isLogFailure = 0) ∧
    (∀ (env : RunEnv) (e : ErrorVal), e.isError = false →
      (runBody env).2 = Except.error e →
      run env = ((runBody env).1 ++ [Event.procExit 0], 0)) := by
  have hch : ∀ e : ErrorVal, e.isError = false → catchHandler e = [] := by
    intro e he; simp [catchHandler, he]
  refine ⟨hch, ?_, ?_⟩
  · intro env e he hseq hd
    have heq : runPurchase env = ((purchaseSeq env).1 ++ [Event.destroyCall], Except.ok ()) := by
      rw [runPurchase_eq, hseq, hd]
      simp [hch e he]
    refine ⟨heq, ?_, ?_⟩ <;> rw [heq] <;>
      simp [List.countP_append, List.countP_cons, isSetFailed, isLogFailure,
        (purchaseSeq_countP_logs env).1, (purchaseSeq_countP_logs env).2]
  · intro env e he hb
    rw [run_eq, hb]
    simp [hch e he]

/-- C10 witness: a non-Error rejection of the purchase call is swallowed
silently, and a non-Error rejection escaping to the controller still
yields a bare success exit. -/
theorem C10_witness :
    ErrorVal.isError ⟨false, "thrown"⟩ = false ∧
    runPurchase c10penv = ((purchaseSeq c10penv).1 ++ [Event.destroyCall], Except.ok ()) ∧
    run c10renv = ((runBody c10renv).1 ++ [Event.procExit 0], 0) :=
  ⟨rfl,
    (C10_non_error_invisible.2.1 c10penv ⟨false, "thrown"⟩ rfl (by decide) rfl).1,
    C10_non_error_invisible.2.2 c10renv ⟨false, "thrown"⟩ rfl (by decide)⟩
